import Mathlib

/-!
Verification of the FinGuard risk-scoring engine and transaction lifecycle.

The development shallowly embeds the Python services
`app/services/fraud_detection.py`, `app/services/transaction_status.py`,
the transaction persistence step of `app/bot/handlers/commands.py`, and the
relevant columns of `app/database/models.py`.

Modelling conventions:
- Python floats (amounts, scores) are modelled as exact rationals `ℚ`.  Every
  arithmetic fact used below (e.g. `0.3 + 0.2 = 0.5`) also holds exactly in
  IEEE-754 double precision for the literals appearing in the code, so the
  rational model is faithful on the values the program manipulates.
- `datetime` values are modelled as integer epoch seconds of naive local time;
  `timedelta(hours=1) = 3600`, `timedelta(hours=24) = 86400`,
  `timedelta(days=30) = 2592000`; `dt.hour = (dt / 3600) % 24`.
- Nullable columns (`description`, `fraud_reasons`) are `Option` values.
- SQLAlchemy queries issued by the service are modelled as explicit inputs:
  either raw query results (`HistoryQueries`, each wrapped in `Except` so a
  store failure can be represented) or as computed from an explicit list of
  stored transactions (`runQueries`), with the wall clock `now` an explicit
  parameter wherever the code calls `datetime.now()`.
- Python truthiness on `str` arguments (`if reason:`, `reason or default`) is
  modelled by `pyTruthy` / `pyOrStr`: `None` and `""` are falsy.
-/

/-- `TransactionType` enum from `app/database/models.py`. -/
inductive TransactionType where
  | income
  | expense
  | transfer
deriving DecidableEq

/-- `TransactionStatus` enum from `app/database/models.py`. -/
inductive TransactionStatus where
  | pending
  | confirmed
  | rejected
  | suspicious
deriving DecidableEq

/-- The columns of the `Transaction` model that the scoring and lifecycle
services read or write (`app/database/models.py`, class `Transaction`).
Columns irrelevant to those services (currency, merchant, location,
category/payment-method links) are omitted. -/
structure Transaction where
  id : Nat
  user_id : Nat
  amount : ℚ
  description : Option String
  type : TransactionType
  status : TransactionStatus
  transaction_date : ℤ
  created_at : ℤ
  is_suspicious : Bool
  fraud_score : ℚ
  fraud_reasons : Option String
  updated_at : ℤ
deriving DecidableEq

/-- `dt.hour` for an epoch-seconds datetime. -/
def hourOf (dt : ℤ) : ℤ :=
  (dt / 3600) % 24

/-- Python truthiness of an optional string: `None` and `""` are falsy. -/
def pyTruthy : Option String → Bool
  | none => false
  | some s => !(s == "")

/-- Python `r or d` for an optional string `r` and default `d`. -/
def pyOrStr (r : Option String) (d : String) : String :=
  match r with
  | none => d
  | some s => if s == "" then d else s

/-- Character-level model of Python `str.lower()` on the alphabets this
program uses (ASCII plus the Russian letters of the keyword list). -/
def pyLowerChar (c : Char) : Char :=
  if 'A' ≤ c ∧ c ≤ 'Z' then Char.ofNat (c.toNat + 32)
  else if 'А' ≤ c ∧ c ≤ 'Я' then Char.ofNat (c.toNat + 32)
  else if c = 'Ё' then 'ё'
  else c

/-- Model of Python `str.lower()`. -/
def pyLower (s : String) : String :=
  ⟨s.data.map pyLowerChar⟩

/-- Python substring containment `pat in s`, on character lists. -/
def containsSub (pat : List Char) : List Char → Bool
  | [] => pat.isEmpty
  | c :: tl => pat.isPrefixOf (c :: tl) || containsSub pat tl

/-- The fixed keyword denylist of `FraudDetectionService.analyze_transaction`
(`suspicious_keywords`, `app/services/fraud_detection.py` lines 68-73). -/
def suspicious_keywords : List String :=
  ["крипто", "биткоин", "эфир", "crypto", "bitcoin", "ethereum",
   "казино", "casino", "ставки", "bet", "gambling",
   "лотерея", "lottery", "приз", "prize",
   "инвестиции", "investment", "трейдинг", "trading"]

/-- An error raised by the store while running a historical query. -/
inductive StoreError where
  | unavailable
deriving DecidableEq

deriving instance DecidableEq for Except

/-- The outcomes of the three historical queries `analyze_transaction`
issues against the store, each of which can instead raise a store error:
the trailing-1-hour transaction count (lines 58-61), the trailing-30-day
average EXPENSE amount (`scalar()`, `none` when there are no rows,
lines 83-87), and the trailing-24-hour identical-amount-and-description
count (lines 94-99). -/
structure HistoryQueries where
  recentCount : Except StoreError Nat
  avgExpense : Except StoreError (Option ℚ)
  similarCount : Except StoreError Nat
deriving DecidableEq

/-- An exception escaping `analyze_transaction`: a store error raised by one
of its queries, or the `AttributeError` from `transaction.description.lower()`
when `description` is `None` (line 75). -/
inductive AnalysisError where
  | storeError (e : StoreError)
  | attributeError
deriving DecidableEq

/-- The dict returned by `analyze_transaction` (lines 36-40 and 108-112). -/
structure AnalysisResult where
  is_suspicious : Bool
  fraud_score : ℚ
  reasons : List String
deriving DecidableEq

/-- `FraudDetectionService.analyze_transaction`
(`app/services/fraud_detection.py` lines 21-112), with the three historical
query outcomes passed in as `q`.  Effects are evaluated in source order:
the velocity query, then `description.lower()`, then the average-spend
query, then the duplicate query; the method has no exception handler, so
the first failure escapes. -/
def analyze_transaction (t : Transaction) (q : HistoryQueries) :
    Except AnalysisError AnalysisResult :=
  if t.type ≠ TransactionType.expense then
    Except.ok { is_suspicious := false, fraud_score := 0, reasons := [] }
  else
    match q.recentCount with
    | Except.error e => Except.error (AnalysisError.storeError e)
    | Except.ok recent_transactions =>
      match t.description with
      | none => Except.error AnalysisError.attributeError
      | some desc =>
        match q.avgExpense with
        | Except.error e => Except.error (AnalysisError.storeError e)
        | Except.ok avgRaw =>
          match q.similarCount with
          | Except.error e => Except.error (AnalysisError.storeError e)
          | Except.ok similar_transactions =>
            let fs1 : ℚ := if t.amount > 10000 then 0 + 3/10 else 0
            let rs1 : List String :=
              if t.amount > 10000 then ["Крупная сумма (>10,000 ₽)"] else []
            let fs2 := if t.amount > 50000 then fs1 + 2/10 else fs1
            let rs2 :=
              if t.amount > 50000 then rs1 ++ ["Очень крупная сумма (>50,000 ₽)"]
              else rs1
            let hour := hourOf t.transaction_date
            let fs3 := if hour < 6 ∨ hour > 23 then fs2 + 2/10 else fs2
            let rs3 :=
              if hour < 6 ∨ hour > 23 then rs2 ++ ["Необычное время транзакции"]
              else rs2
            let fs4 := if recent_transactions > 5 then fs3 + 3/10 else fs3
            let rs4 :=
              if recent_transactions > 5 then
                rs3 ++ ["Много транзакций за последний час"]
              else rs3
            let description_lower := pyLower desc
            let kwHit :=
              suspicious_keywords.find?
                (fun kw => containsSub kw.data description_lower.data)
            let fs5 := match kwHit with
              | some _ => fs4 + 4/10
              | none => fs4
            let rs5 := match kwHit with
              | some kw => rs4 ++ ["Подозрительное описание: " ++ kw]
              | none => rs4
            let avg_expense : ℚ := match avgRaw with
              | none => 0
              | some v => v
            let fs6 :=
              if avg_expense > 0 ∧ t.amount > avg_expense * 3 then fs5 + 3/10
              else fs5
            let rs6 :=
              if avg_expense > 0 ∧ t.amount > avg_expense * 3 then
                rs5 ++ ["Сумма значительно превышает средние расходы"]
              else rs5
            let fs7 := if similar_transactions > 2 then fs6 + 2/10 else fs6
            let rs7 :=
              if similar_transactions > 2 then rs6 ++ ["Повторяющиеся транзакции"]
              else rs6
            let fraud_score := min fs7 1
            Except.ok
              { is_suspicious := decide (fraud_score > 1/2),
                fraud_score := fraud_score,
                reasons := rs7 }

/-- The `created_at >= datetime.now() - timedelta(hours=1)` velocity query of
`analyze_transaction` (lines 58-61), over an explicit list of stored rows. -/
def queryRecentCount (store : List Transaction) (t : Transaction) (now : ℤ) : Nat :=
  (store.filter (fun s =>
    decide (s.user_id = t.user_id ∧ s.created_at ≥ now - 3600))).length

/-- The trailing-30-day average-EXPENSE query of `analyze_transaction`
(lines 83-87): `func.avg` over the matching rows, `none` when there are no
rows (SQL `AVG` of an empty set is `NULL`). -/
def queryAvgExpense (store : List Transaction) (t : Transaction) (now : ℤ) :
    Option ℚ :=
  let rows := store.filter (fun s =>
    decide (s.user_id = t.user_id ∧ s.type = TransactionType.expense ∧
      s.created_at ≥ now - 2592000))
  if rows.isEmpty then none
  else some ((rows.map Transaction.amount).sum / rows.length)

/-- The trailing-24-hour duplicate query of `analyze_transaction`
(lines 94-99): identical amount and identical description. -/
def querySimilarCount (store : List Transaction) (t : Transaction) (now : ℤ) : Nat :=
  (store.filter (fun s =>
    decide (s.user_id = t.user_id ∧ s.amount = t.amount ∧
      s.description = t.description ∧ s.created_at ≥ now - 86400))).length

/-- The three historical queries as the code issues them: every window is
anchored at `datetime.now()` (the `now` argument), not at the transaction's
own `transaction_date`. -/
def runQueries (store : List Transaction) (t : Transaction) (now : ℤ) :
    HistoryQueries :=
  { recentCount := Except.ok (queryRecentCount store t now),
    avgExpense := Except.ok (queryAvgExpense store t now),
    similarCount := Except.ok (querySimilarCount store t now) }

/-- `analyze_transaction` run against a live store at wall-clock time `now`. -/
def analyze_with_store (t : Transaction) (store : List Transaction) (now : ℤ) :
    Except AnalysisError AnalysisResult :=
  analyze_transaction t (runQueries store t now)

/-- The persistence of an analysis result onto the transaction row, as done
by the caller in `app/bot/handlers/commands.py` (lines 288-291):
`transaction.is_suspicious = analysis['is_suspicious']`,
`transaction.fraud_score = analysis['fraud_score']`,
`transaction.fraud_reasons = ', '.join(analysis['reasons']) if analysis['reasons'] else None`. -/
def persist_analysis (t : Transaction) (analysis : AnalysisResult) : Transaction :=
  { t with
    is_suspicious := analysis.is_suspicious,
    fraud_score := analysis.fraud_score,
    fraud_reasons :=
      if analysis.reasons.isEmpty then none
      else some (String.intercalate ", " analysis.reasons) }

/-- The severity computation of `FraudDetectionService.create_fraud_alert`
(`app/services/fraud_detection.py` lines 125-130). -/
def severityOf (fraud_score : ℚ) : String :=
  if fraud_score > 7/10 then "HIGH"
  else if fraud_score > 5/10 then "MEDIUM"
  else "LOW"

/-- The columns of the `FraudAlert` model (`app/database/models.py`,
class `FraudAlert`) written by the service, plus the boolean defaults. -/
structure FraudAlert where
  user_id : Nat
  transaction_id : Option Nat
  alert_type : String
  severity : String
  message : String
  is_read : Bool
  is_resolved : Bool
deriving DecidableEq

/-- `FraudDetectionService.create_fraud_alert` (lines 114-144).  The Python
f-string renders the float amount and the (possibly `None`) description; the
rendering of the rational amount differs textually from CPython float repr,
but no property below depends on the message text. -/
def create_fraud_alert (t : Transaction) (analysis : AnalysisResult) : FraudAlert :=
  { user_id := t.user_id,
    transaction_id := some t.id,
    alert_type := "SUSPICIOUS_TRANSACTION",
    severity := severityOf analysis.fraud_score,
    message := "Подозрительная транзакция: " ++ toString t.amount ++ " ₽ - "
      ++ (match t.description with | some d => d | none => "None")
      ++ ". Причины: " ++ String.intercalate ", " analysis.reasons,
    is_read := false,
    is_resolved := false }

/-- The error outcomes of `TransactionStatusService`
(`app/services/transaction_status.py`), one constructor per distinct
`'error'` message the service returns. -/
inductive StatusError where
  | notFound
  | alreadyConfirmed
  | cannotConfirmRejected
  | alreadyRejected
  | cannotRejectConfirmed
deriving DecidableEq

/-- The `.filter(and_(Transaction.id == tid, Transaction.user_id == uid)).first()`
lookup shared by all three lifecycle operations. -/
def findTransaction (store : List Transaction) (tid uid : Nat) : Option Transaction :=
  store.find? (fun t => decide (t.id = tid ∧ t.user_id = uid))

/-- Committing a mutation of the row identified by `(tid, uid)` back into the
store.  `id` is a primary key, so at most one row matches; mapping over all
matches is therefore equivalent to the ORM's single-row update. -/
def updateStore (store : List Transaction) (tid uid : Nat)
    (f : Transaction → Transaction) : List Transaction :=
  store.map (fun t => if t.id = tid ∧ t.user_id = uid then f t else t)

/-- `TransactionStatusService.confirm_transaction`
(`app/services/transaction_status.py` lines 22-77).  The success case
returns the committed store together with the mutated transaction row.
The `except` arm of the source only catches storage failures, which this
store model cannot produce. -/
def confirm_transaction (store : List Transaction) (tid uid : Nat) (now : ℤ) :
    Except StatusError (List Transaction × Transaction) :=
  match findTransaction store tid uid with
  | none => Except.error StatusError.notFound
  | some transaction =>
    if transaction.status = TransactionStatus.confirmed then
      Except.error StatusError.alreadyConfirmed
    else if transaction.status = TransactionStatus.rejected then
      Except.error StatusError.cannotConfirmRejected
    else
      let upd := fun t : Transaction =>
        { t with status := TransactionStatus.confirmed, updated_at := now }
      Except.ok (updateStore store tid uid upd, upd transaction)

/-- `TransactionStatusService.reject_transaction` (lines 79-141).  The audit
suffix is only appended when `reason` is truthy (`if reason:`), i.e. present
and non-empty; `transaction.description or ""` maps a `None` description to
the empty string. -/
def reject_transaction (store : List Transaction) (tid uid : Nat)
    (reason : Option String) (now : ℤ) :
    Except StatusError (List Transaction × Transaction) :=
  match findTransaction store tid uid with
  | none => Except.error StatusError.notFound
  | some transaction =>
    if transaction.status = TransactionStatus.rejected then
      Except.error StatusError.alreadyRejected
    else if transaction.status = TransactionStatus.confirmed then
      Except.error StatusError.cannotRejectConfirmed
    else
      let upd := fun t : Transaction =>
        let t1 := { t with status := TransactionStatus.rejected, updated_at := now }
        if pyTruthy reason then
          let current_description := t1.description.getD ""
          let newDescription :=
            current_description ++ " [ОТКЛОНЕНО: " ++ reason.getD "" ++ "]"
          { t1 with description := some newDescription }
        else t1
      Except.ok (updateStore store tid uid upd, upd transaction)

/-- `TransactionStatusService.mark_as_suspicious` (lines 143-191): no status
guard at all; force-sets status, flag, the fixed score `0.8`, and the reason
(`reason or "Помечено пользователем как подозрительная"`). -/
def mark_as_suspicious (store : List Transaction) (tid uid : Nat)
    (reason : Option String) (now : ℤ) :
    Except StatusError (List Transaction × Transaction) :=
  match findTransaction store tid uid with
  | none => Except.error StatusError.notFound
  | some transaction =>
    let upd := fun t : Transaction =>
      { t with
        status := TransactionStatus.suspicious,
        is_suspicious := true,
        fraud_score := 8/10,
        fraud_reasons := some (pyOrStr reason "Помечено пользователем как подозрительная"),
        updated_at := now }
    Except.ok (updateStore store tid uid upd, upd transaction)

/-! ### Concrete fixtures used by the theorems below -/

/-- Query results for a user with no stored history: zero rows in each
window, so `AVG` returns SQL `NULL`. -/
def qEmptyHistory : HistoryQueries :=
  { recentCount := Except.ok 0, avgExpense := Except.ok none,
    similarCount := Except.ok 0 }

/-- Query results in which the trailing-1-hour velocity query raises a
store error and the remaining queries would succeed. -/
def qVelocityError : HistoryQueries :=
  { recentCount := Except.error StoreError.unavailable,
    avgExpense := Except.ok none, similarCount := Except.ok 0 }

/-- Query results in which the trailing-30-day average-spend query raises a
store error. -/
def qAvgError : HistoryQueries :=
  { recentCount := Except.ok 0,
    avgExpense := Except.error StoreError.unavailable,
    similarCount := Except.ok 0 }

/-- The spec's boundary scenario: an EXPENSE of 15,000 at 03:00 with
description "groceries" (epoch 10800 is 03:00 on day zero). -/
def tBoundary : Transaction :=
  { id := 1, user_id := 1, amount := 15000, description := some "groceries",
    type := TransactionType.expense, status := TransactionStatus.confirmed,
    transaction_date := 10800, created_at := 10800,
    is_suspicious := false, fraud_score := 0, fraud_reasons := none,
    updated_at := 0 }

/-- An EXPENSE that triggers every heuristic: 60,000 at 03:00 with a
denylisted description. -/
def tAllHeuristics : Transaction :=
  { id := 2, user_id := 1, amount := 60000,
    description := some "bitcoin casino",
    type := TransactionType.expense, status := TransactionStatus.confirmed,
    transaction_date := 10800, created_at := 10800,
    is_suspicious := false, fraud_score := 0, fraud_reasons := none,
    updated_at := 0 }

/-- Query results that trigger the velocity, average-spend and duplicate
heuristics: 6 recent transactions, a 30-day average of 10, 3 duplicates. -/
def qAllHeuristics : HistoryQueries :=
  { recentCount := Except.ok 6, avgExpense := Except.ok (some 10),
    similarCount := Except.ok 3 }

/-- The reason strings produced when all seven heuristics fire, in
evaluation order. -/
def allHeuristicReasons : List String :=
  ["Крупная сумма (>10,000 ₽)", "Очень крупная сумма (>50,000 ₽)",
   "Необычное время транзакции", "Много транзакций за последний час",
   "Подозрительное описание: bitcoin",
   "Сумма значительно превышает средние расходы", "Повторяющиеся транзакции"]

/-- An INCOME transaction (for the type-guard property). -/
def tIncome : Transaction :=
  { tBoundary with id := 3, type := TransactionType.income }

/-- An EXPENSE transaction whose nullable `description` column is `NULL`. -/
def tNoDescription : Transaction :=
  { tBoundary with id := 4, description := none }

/-- An otherwise unremarkable EXPENSE at 12:00 (epoch 43200) whose owner has
six stored transactions, all created at epoch 0. -/
def tMidday : Transaction :=
  { id := 5, user_id := 1, amount := 100, description := some "food",
    type := TransactionType.expense, status := TransactionStatus.confirmed,
    transaction_date := 43200, created_at := 43200,
    is_suspicious := false, fraud_score := 0, fraud_reasons := none,
    updated_at := 0 }

/-- Six stored INCOME rows of user 1, all created at epoch 0 with an amount
and description different from `tMidday`. -/
def sixOldRows : List Transaction :=
  [{ id := 10, user_id := 1, amount := 5, description := some "x",
     type := TransactionType.income, status := TransactionStatus.confirmed,
     transaction_date := 0, created_at := 0, is_suspicious := false,
     fraud_score := 0, fraud_reasons := none, updated_at := 0 },
   { id := 11, user_id := 1, amount := 5, description := some "x",
     type := TransactionType.income, status := TransactionStatus.confirmed,
     transaction_date := 0, created_at := 0, is_suspicious := false,
     fraud_score := 0, fraud_reasons := none, updated_at := 0 },
   { id := 12, user_id := 1, amount := 5, description := some "x",
     type := TransactionType.income, status := TransactionStatus.confirmed,
     transaction_date := 0, created_at := 0, is_suspicious := false,
     fraud_score := 0, fraud_reasons := none, updated_at := 0 },
   { id := 13, user_id := 1, amount := 5, description := some "x",
     type := TransactionType.income, status := TransactionStatus.confirmed,
     transaction_date := 0, created_at := 0, is_suspicious := false,
     fraud_score := 0, fraud_reasons := none, updated_at := 0 },
   { id := 14, user_id := 1, amount := 5, description := some "x",
     type := TransactionType.income, status := TransactionStatus.confirmed,
     transaction_date := 0, created_at := 0, is_suspicious := false,
     fraud_score := 0, fraud_reasons := none, updated_at := 0 },
   { id := 15, user_id := 1, amount := 5, description := some "x",
     type := TransactionType.income, status := TransactionStatus.confirmed,
     transaction_date := 0, created_at := 0, is_suspicious := false,
     fraud_score := 0, fraud_reasons := none, updated_at := 0 }]

/-- A store holding one PENDING transaction of user 1 with id 1. -/
def txPending : Transaction :=
  { id := 1, user_id := 1, amount := 200, description := some "lunch",
    type := TransactionType.expense, status := TransactionStatus.pending,
    transaction_date := 50000, created_at := 50000,
    is_suspicious := false, fraud_score := 0, fraud_reasons := none,
    updated_at := 0 }

/-- Singleton store around `txPending`. -/
def stPending : List Transaction := [txPending]

/-- A store holding one REJECTED transaction of user 1 with id 2. -/
def txRejectedRow : Transaction :=
  { txPending with id := 2, status := TransactionStatus.rejected }

/-- Singleton store around `txRejectedRow`. -/
def stRejected : List Transaction := [txRejectedRow]

/-! ### Theorems -/

set_option maxHeartbeats 1600000 in
/-- C1: For every transaction, the result of `analyze_transaction` satisfies
`0.0 ≤ fraud_score ≤ 1.0`; in particular, on a transaction for which every
heuristic triggers the raw sum 1.7 is clamped to 1.0. -/
theorem C1_fraud_score_bounded :
    (∀ t q r, analyze_transaction t q = Except.ok r →
      0 ≤ r.fraud_score ∧ r.fraud_score ≤ 1) ∧
    analyze_transaction tAllHeuristics qAllHeuristics =
      Except.ok { is_suspicious := true, fraud_score := 1,
                  reasons := allHeuristicReasons } := by
  constructor
  · intro t q r h
    unfold analyze_transaction at h
    split at h
    · injection h with h2
      rw [← h2]
      norm_num
    · split at h
      · exact absurd h (by simp)
      · split at h
        · exact absurd h (by simp)
        · split at h
          · exact absurd h (by simp)
          · split at h
            · exact absurd h (by simp)
            · simp only [Except.ok.injEq] at h
              rw [← h]
              constructor
              · refine le_min ?_ zero_le_one
                repeat' split
                all_goals norm_num
              · exact min_le_right _ _
  · have hkw : suspicious_keywords.find?
        (fun kw => containsSub kw.data (pyLower "bitcoin casino").data) =
          some "bitcoin" := by decide
    simp [analyze_transaction, tAllHeuristics, qAllHeuristics,
      allHeuristicReasons, hourOf, hkw, min_def]
    norm_num

/-- C1 witness: the bound theorem applied to the all-heuristics transaction,
whose analysis hypothesis is discharged by the clamp instance itself. -/
theorem C1_fraud_score_bounded_witness :
    0 ≤ ({ is_suspicious := true, fraud_score := 1,
           reasons := allHeuristicReasons } : AnalysisResult).fraud_score ∧
    ({ is_suspicious := true, fraud_score := 1,
       reasons := allHeuristicReasons } : AnalysisResult).fraud_score ≤ 1 :=
  C1_fraud_score_bounded.1 tAllHeuristics qAllHeuristics
    { is_suspicious := true, fraud_score := 1, reasons := allHeuristicReasons }
    C1_fraud_score_bounded.2

/-- C9: INCOME and TRANSFER transactions are never scored: the analysis
returns score 0, not suspicious, empty reasons, for any query outcomes. -/
theorem C9_only_expense_scored :
    ∀ t q, t.type = TransactionType.income ∨ t.type = TransactionType.transfer →
      analyze_transaction t q =
        Except.ok { is_suspicious := false, fraud_score := 0, reasons := [] } := by
  intro t q h
  have hne : t.type ≠ TransactionType.expense := by
    rcases h with h | h <;> simp [h]
  unfold analyze_transaction
  simp [hne]

/-- C9 witness: the INCOME fixture is returned unscored. -/
theorem C9_only_expense_scored_witness :
    analyze_transaction tIncome qAllHeuristics =
      Except.ok { is_suspicious := false, fraud_score := 0, reasons := [] } :=
  C9_only_expense_scored tIncome qAllHeuristics (Or.inl rfl)

/-- C2 counterexample: on an EXPENSE transaction whose velocity query raises
a store error, `analyze_transaction` does not skip the heuristic and return a
result — the whole analysis fails with the store error. -/
theorem C2_counterexample :
    analyze_transaction tBoundary qVelocityError =
      Except.error (AnalysisError.storeError StoreError.unavailable) := rfl

/-- C2 (amended): a store error in any of the three historical queries is
not recovered: `analyze_transaction` propagates the first store error it
encounters (in query order: velocity, then average-spend, then duplicate)
and produces no analysis result. -/
theorem C2_store_error_propagates :
    (∀ t q e, t.type = TransactionType.expense →
      q.recentCount = Except.error e →
      analyze_transaction t q = Except.error (AnalysisError.storeError e)) ∧
    (∀ t q n d e, t.type = TransactionType.expense →
      q.recentCount = Except.ok n → t.description = some d →
      q.avgExpense = Except.error e →
      analyze_transaction t q = Except.error (AnalysisError.storeError e)) ∧
    (∀ t q n d a e, t.type = TransactionType.expense →
      q.recentCount = Except.ok n → t.description = some d →
      q.avgExpense = Except.ok a → q.similarCount = Except.error e →
      analyze_transaction t q = Except.error (AnalysisError.storeError e)) := by
  refine ⟨?_, ?_, ?_⟩
  · intro t q e ht hq
    unfold analyze_transaction
    simp [ht, hq]
  · intro t q n d e ht hn hd hq
    unfold analyze_transaction
    simp [ht, hn, hd, hq]
  · intro t q n d a e ht hn hd ha hq
    unfold analyze_transaction
    simp [ht, hn, hd, ha, hq]

/-- C2 witness: the amended propagation theorem applied at the fixture whose
average-spend query fails. -/
theorem C2_store_error_propagates_witness :
    analyze_transaction tBoundary qAvgError =
      Except.error (AnalysisError.storeError StoreError.unavailable) :=
  C2_store_error_propagates.2.1 tBoundary qAvgError 0 "groceries"
    StoreError.unavailable rfl rfl rfl rfl

/-- C10: on an EXPENSE transaction whose `description` is NULL, once the
velocity query has returned, the keyword-match step raises (the model's
`AttributeError` from `None.lower()`) instead of producing a result —
whatever the earlier heuristics computed. -/
theorem C10_null_description_raises :
    ∀ t q n, t.type = TransactionType.expense → t.description = none →
      q.recentCount = Except.ok n →
      analyze_transaction t q = Except.error AnalysisError.attributeError := by
  intro t q n ht hd hn
  unfold analyze_transaction
  simp [ht, hd, hn]

/-- C10 witness: the NULL-description EXPENSE fixture raises. -/
theorem C10_null_description_raises_witness :
    analyze_transaction tNoDescription qEmptyHistory =
      Except.error AnalysisError.attributeError :=
  C10_null_description_raises tNoDescription qEmptyHistory 0 rfl rfl rfl

set_option maxHeartbeats 1600000 in
/-- C4: every core write of the suspicious flag maintains
`is_suspicious = (fraud_score > 0.5)`: the analysis result itself, the
caller persisting that result onto the row, and `mark_as_suspicious`
(which force-writes score 0.8 with the flag set); and the boundary is
exclusive — the spec's 15,000-at-03:00 "groceries" EXPENSE scores exactly
0.5 and is not suspicious. -/
theorem C4_suspicious_iff_score_above_half :
    (∀ t q r, analyze_transaction t q = Except.ok r →
      r.is_suspicious = decide (r.fraud_score > 1/2)) ∧
    (∀ t0 t q r, analyze_transaction t q = Except.ok r →
      (persist_analysis t0 r).is_suspicious =
        decide ((persist_analysis t0 r).fraud_score > 1/2)) ∧
    (∀ store tid uid reason now store2 tx,
      mark_as_suspicious store tid uid reason now = Except.ok (store2, tx) →
      tx.fraud_score = 8/10 ∧
      tx.is_suspicious = decide (tx.fraud_score > 1/2)) ∧
    analyze_transaction tBoundary qEmptyHistory =
      Except.ok { is_suspicious := false, fraud_score := 1/2,
                  reasons := ["Крупная сумма (>10,000 ₽)",
                              "Необычное время транзакции"] } := by
  have hmain : ∀ t q r, analyze_transaction t q = Except.ok r →
      r.is_suspicious = decide (r.fraud_score > 1/2) := by
    intro t q r h
    unfold analyze_transaction at h
    split at h
    · injection h with h2
      rw [← h2]
      norm_num
    · split at h
      · exact absurd h (by simp)
      · split at h
        · exact absurd h (by simp)
        · split at h
          · exact absurd h (by simp)
          · split at h
            · exact absurd h (by simp)
            · simp only [Except.ok.injEq] at h
              rw [← h]
  refine ⟨hmain, ?_, ?_, ?_⟩
  · intro t0 t q r h
    have := hmain t q r h
    simpa [persist_analysis] using this
  · intro store tid uid reason now store2 tx h
    unfold mark_as_suspicious at h
    split at h
    · exact absurd h (by simp)
    · simp only [Except.ok.injEq, Prod.mk.injEq] at h
      rw [← h.2]
      constructor
      · rfl
      · norm_num
  · have hkw : suspicious_keywords.find?
        (fun kw => containsSub kw.data (pyLower "groceries").data) = none := by
      decide
    simp [analyze_transaction, tBoundary, qEmptyHistory, hourOf, hkw, min_def]
    norm_num

/-- C4 witness: the invariant theorem applied to the boundary analysis,
with the analysis hypothesis discharged by the boundary evaluation itself. -/
theorem C4_suspicious_iff_score_above_half_witness :
    ({ is_suspicious := false, fraud_score := 1/2,
       reasons := ["Крупная сумма (>10,000 ₽)", "Необычное время транзакции"] }
      : AnalysisResult).is_suspicious =
    decide (({ is_suspicious := false, fraud_score := 1/2,
               reasons := ["Крупная сумма (>10,000 ₽)",
                           "Необычное время транзакции"] }
      : AnalysisResult).fraud_score > 1/2) :=
  C4_suspicious_iff_score_above_half.1 tBoundary qEmptyHistory
    { is_suspicious := false, fraud_score := 1/2,
      reasons := ["Крупная сумма (>10,000 ₽)", "Необычное время транзакции"] }
    C4_suspicious_iff_score_above_half.2.2.2

/-- C8: an alert's severity is the deterministic function of the triggering
score computed by `create_fraud_alert` — `score > 0.7 → HIGH`,
`0.5 < score ≤ 0.7 → MEDIUM`, otherwise `LOW` — recomputed from
`analysis['fraud_score']` at creation, so 0.75 gives HIGH, 0.6 gives
MEDIUM, and the fixed 0.8 written by `mark_as_suspicious` gives HIGH. -/
theorem C8_severity_deterministic :
    (∀ s : ℚ, (s > 7/10 → severityOf s = "HIGH") ∧
      (5/10 < s ∧ s ≤ 7/10 → severityOf s = "MEDIUM") ∧
      (s ≤ 5/10 → severityOf s = "LOW")) ∧
    (∀ t a, (create_fraud_alert t a).severity = severityOf a.fraud_score) ∧
    (∀ store tid uid reason now store2 tx,
      mark_as_suspicious store tid uid reason now = Except.ok (store2, tx) →
      severityOf tx.fraud_score = "HIGH") ∧
    severityOf (3/4) = "HIGH" ∧ severityOf (3/5) = "MEDIUM" ∧
    severityOf (8/10) = "HIGH" := by
  refine ⟨?_, ?_, ?_, ?_, ?_, ?_⟩
  · intro s
    refine ⟨?_, ?_, ?_⟩
    · intro h
      simp [severityOf, h]
    · intro h
      have h1 : ¬ s > 7/10 := by linarith [h.2]
      have h2 : s > 5/10 := h.1
      simp [severityOf, h1, h2]
    · intro h
      have h1 : ¬ s > 7/10 := by linarith
      have h2 : ¬ s > 5/10 := by linarith
      simp [severityOf, h1, h2]
  · intro t a
    rfl
  · intro store tid uid reason now store2 tx h
    unfold mark_as_suspicious at h
    split at h
    · exact absurd h (by simp)
    · simp only [Except.ok.injEq, Prod.mk.injEq] at h
      rw [← h.2]
      norm_num [severityOf]
  · norm_num [severityOf]
  · norm_num [severityOf]
  · norm_num [severityOf]

/-- C8 witness: the severity mapping applied at score 0.75, its hypothesis
discharged numerically. -/
theorem C8_severity_deterministic_witness : severityOf (3/4) = "HIGH" :=
  (C8_severity_deterministic.1 (3/4)).1 (by norm_num)

/-- C3 counterexample: the same transaction (same `transaction_date`)
analysed against the same stored history at two different wall-clock times
produces different results — the query windows are anchored at
`datetime.now()` (lines 60, 86, 98 of `fraud_detection.py`), not at the
transaction's own timestamp, so at `now = 3000` the six epoch-0 rows fall
inside the 1-hour velocity window while at `now = 10000` they do not. -/
theorem C3_counterexample :
    Except.map AnalysisResult.reasons (analyze_with_store tMidday sixOldRows 3000) ≠
      Except.map AnalysisResult.reasons (analyze_with_store tMidday sixOldRows 10000) := by
  decide

/-- C3 (amended): scoring is deterministic given the transaction and the
historical query results — equal query outcomes yield an identical analysis
— but the trailing 1-hour, 24-hour and 30-day windows those queries use are
anchored to the current wall clock, not to the transaction's timestamp. -/
theorem C3_deterministic_given_query_results :
    ∀ t store now1 now2, runQueries store t now1 = runQueries store t now2 →
      analyze_with_store t store now1 = analyze_with_store t store now2 := by
  intro t store now1 now2 h
  unfold analyze_with_store
  rw [h]

/-- C3 witness: determinism applied at a concrete store and time. -/
theorem C3_deterministic_given_query_results_witness :
    analyze_with_store tMidday sixOldRows 3000 =
      analyze_with_store tMidday sixOldRows 3000 :=
  C3_deterministic_given_query_results tMidday sixOldRows 3000 3000 rfl

/-- Committing a row mutation and looking the row up again: the lookup finds
the mutated row, provided the mutation preserves the key columns. -/
theorem findTransaction_updateStore (store : List Transaction) (tid uid : Nat)
    (f : Transaction → Transaction)
    (hid : ∀ t, (f t).id = t.id) (huid : ∀ t, (f t).user_id = t.user_id) :
    findTransaction (updateStore store tid uid f) tid uid =
      (findTransaction store tid uid).map f := by
  induction store with
  | nil => rfl
  | cons hd tl ih =>
    by_cases hc : hd.id = tid ∧ hd.user_id = uid
    · have h1 : updateStore (hd :: tl) tid uid f = f hd :: updateStore tl tid uid f := by
        simp [updateStore, hc]
      have h2 : findTransaction (f hd :: updateStore tl tid uid f) tid uid = some (f hd) := by
        unfold findTransaction
        rw [List.find?_cons_of_pos]
        simp [hid, huid, hc.1, hc.2]
      have h3 : findTransaction (hd :: tl) tid uid = some hd := by
        unfold findTransaction
        rw [List.find?_cons_of_pos]
        simp [hc.1, hc.2]
      rw [h1, h2, h3]
      rfl
    · have h1 : updateStore (hd :: tl) tid uid f = hd :: updateStore tl tid uid f := by
        simp [updateStore, hc]
      have h2 : findTransaction (hd :: updateStore tl tid uid f) tid uid =
          findTransaction (updateStore tl tid uid f) tid uid := by
        unfold findTransaction
        rw [List.find?_cons_of_neg]
        simp [hc]
      have h3 : findTransaction (hd :: tl) tid uid = findTransaction tl tid uid := by
        unfold findTransaction
        rw [List.find?_cons_of_neg]
        simp [hc]
      rw [h1, h2, h3]
      exact ih

/-- C5: on an existing `(transaction_id, user_id)` pair, `confirm_transaction`
fails with the already-confirmed guard from CONFIRMED and the
cannot-confirm-rejected guard from REJECTED, and succeeds (status becomes
CONFIRMED) from PENDING or SUSPICIOUS; consequently confirm-after-confirm
fails with the first guard and confirm-after-reject fails with the second. -/
theorem C5_confirm_guards :
    (∀ store tid uid now tx, findTransaction store tid uid = some tx →
      (tx.status = TransactionStatus.confirmed →
        confirm_transaction store tid uid now =
          Except.error StatusError.alreadyConfirmed) ∧
      (tx.status = TransactionStatus.rejected →
        confirm_transaction store tid uid now =
          Except.error StatusError.cannotConfirmRejected) ∧
      (tx.status = TransactionStatus.pending ∨
          tx.status = TransactionStatus.suspicious →
        confirm_transaction store tid uid now =
          Except.ok (updateStore store tid uid
              (fun t => { t with status := TransactionStatus.confirmed,
                                 updated_at := now }),
            { tx with status := TransactionStatus.confirmed,
                      updated_at := now }))) ∧
    (∀ store tid uid now now2 store2 tx2,
      confirm_transaction store tid uid now = Except.ok (store2, tx2) →
      confirm_transaction store2 tid uid now2 =
        Except.error StatusError.alreadyConfirmed) ∧
    (∀ store tid uid reason now now2 store2 tx2,
      reject_transaction store tid uid reason now = Except.ok (store2, tx2) →
      confirm_transaction store2 tid uid now2 =
        Except.error StatusError.cannotConfirmRejected) := by
  refine ⟨?_, ?_, ?_⟩
  · intro store tid uid now tx hfind
    refine ⟨?_, ?_, ?_⟩
    · intro hs
      unfold confirm_transaction
      simp [hfind, hs]
    · intro hs
      unfold confirm_transaction
      simp [hfind, hs]
    · intro hs
      unfold confirm_transaction
      rcases hs with hs | hs <;> simp [hfind, hs]
  · intro store tid uid now now2 store2 tx2 h
    unfold confirm_transaction at h
    cases hfind : findTransaction store tid uid with
    | none => rw [hfind] at h; exact absurd h (by simp)
    | some tx =>
      rw [hfind] at h
      split at h
      · exact absurd h (by simp)
      next txm heq =>
        injection heq with heq
        subst heq
        split at h
        · exact absurd h (by simp)
        · split at h
          · exact absurd h (by simp)
          · simp only [Except.ok.injEq, Prod.mk.injEq] at h
            have hstore : store2 = updateStore store tid uid
                (fun t => { t with status := TransactionStatus.confirmed,
                                   updated_at := now }) := h.1.symm
            have hfind2 := findTransaction_updateStore store tid uid
              (fun t => { t with status := TransactionStatus.confirmed,
                                 updated_at := now })
              (fun t => rfl) (fun t => rfl)
            rw [hfind] at hfind2
            unfold confirm_transaction
            rw [hstore, hfind2]
            simp
  · intro store tid uid reason now now2 store2 tx2 h
    unfold reject_transaction at h
    cases hfind : findTransaction store tid uid with
    | none => rw [hfind] at h; exact absurd h (by simp)
    | some tx =>
      rw [hfind] at h
      split at h
      · exact absurd h (by simp)
      next txm heq =>
        injection heq with heq
        subst heq
        split at h
        · exact absurd h (by simp)
        · split at h
          · exact absurd h (by simp)
          · simp only [Except.ok.injEq, Prod.mk.injEq] at h
            have hstore : store2 = updateStore store tid uid _ := h.1.symm
            have hfind2 := findTransaction_updateStore store tid uid
              (fun t : Transaction =>
                let t1 := { t with status := TransactionStatus.rejected,
                                   updated_at := now }
                if pyTruthy reason then
                  let current_description := t1.description.getD ""
                  let newDescription :=
                    current_description ++ " [ОТКЛОНЕНО: " ++ reason.getD "" ++ "]"
                  { t1 with description := some newDescription }
                else t1)
              (fun t => by cases hr : pyTruthy reason <;> simp [hr])
              (fun t => by cases hr : pyTruthy reason <;> simp [hr])
            rw [hfind] at hfind2
            unfold confirm_transaction
            rw [hstore, hfind2]
            cases hr : pyTruthy reason <;> simp [hr]

/-- C5 witness: confirming the PENDING fixture succeeds with status
CONFIRMED. -/
theorem C5_confirm_guards_witness :
    confirm_transaction stPending 1 1 5 =
      Except.ok (updateStore stPending 1 1
          (fun t => { t with status := TransactionStatus.confirmed,
                             updated_at := 5 }),
        { txPending with status := TransactionStatus.confirmed,
                         updated_at := 5 }) :=
  (C5_confirm_guards.1 stPending 1 1 5 txPending rfl).2.2 (Or.inl rfl)

/-- C6: `mark_as_suspicious` has no status guard: on any existing
`(transaction_id, user_id)` pair — whatever its current state, including
CONFIRMED and REJECTED — it succeeds, setting status SUSPICIOUS, the
suspicious flag, the fixed score 0.8, and the supplied reason or the
default. -/
theorem C6_mark_suspicious_any_state :
    ∀ store tid uid reason now tx, findTransaction store tid uid = some tx →
      mark_as_suspicious store tid uid reason now =
        Except.ok (updateStore store tid uid
            (fun t => { t with
                        status := TransactionStatus.suspicious,
                        is_suspicious := true, fraud_score := 8/10,
                        fraud_reasons := some (pyOrStr reason
                          "Помечено пользователем как подозрительная"),
                        updated_at := now }),
          { tx with
            status := TransactionStatus.suspicious,
            is_suspicious := true, fraud_score := 8/10,
            fraud_reasons := some (pyOrStr reason
              "Помечено пользователем как подозрительная"),
            updated_at := now }) := by
  intro store tid uid reason now tx hfind
  unfold mark_as_suspicious
  rw [hfind]

/-- C6 witness: marking the REJECTED fixture suspicious succeeds and
records the supplied reason. -/
theorem C6_mark_suspicious_any_state_witness :
    mark_as_suspicious stRejected 2 1 (some "looks fraudulent") 7 =
      Except.ok (updateStore stRejected 2 1
          (fun t => { t with
                      status := TransactionStatus.suspicious,
                      is_suspicious := true, fraud_score := 8/10,
                      fraud_reasons := some (pyOrStr (some "looks fraudulent")
                        "Помечено пользователем как подозрительная"),
                      updated_at := 7 }),
        { txRejectedRow with
          status := TransactionStatus.suspicious,
          is_suspicious := true, fraud_score := 8/10,
          fraud_reasons := some (pyOrStr (some "looks fraudulent")
            "Помечено пользователем как подозрительная"),
          updated_at := 7 }) :=
  C6_mark_suspicious_any_state stRejected 2 1 (some "looks fraudulent") 7
    txRejectedRow rfl

/-- C7 counterexample: rejecting the PENDING fixture with the supplied
reason `""` succeeds and sets status REJECTED, yet the description keeps its
original value `some "lunch"` with no audit suffix — the supplied reason is
silently discarded because `if reason:` treats the empty string as absent. -/
theorem C7_counterexample :
    reject_transaction stPending 1 1 (some "") 5 =
      Except.ok ([{ txPending with
                    status := TransactionStatus.rejected, updated_at := 5 }],
        { txPending with
          status := TransactionStatus.rejected, updated_at := 5 }) := by
  rfl

/-- C7 (amended): when `reject_transaction` succeeds on a PENDING
transaction with a supplied non-empty reason, the status becomes REJECTED
and the reason is appended to the description as the audit suffix
`" [ОТКЛОНЕНО: <reason>]"`; a supplied empty-string reason is treated as
absent (Python truthiness) and silently discarded. -/
theorem C7_reject_appends_nonempty_reason :
    ∀ store tid uid s now tx, findTransaction store tid uid = some tx →
      tx.status = TransactionStatus.pending → s ≠ "" →
      reject_transaction store tid uid (some s) now =
        Except.ok (updateStore store tid uid
            (fun t : Transaction =>
              let t1 := { t with
                          status := TransactionStatus.rejected,
                          updated_at := now }
              if pyTruthy (some s) then
                let current_description := t1.description.getD ""
                let newDescription :=
                  current_description ++ " [ОТКЛОНЕНО: "
                    ++ (some s : Option String).getD "" ++ "]"
                { t1 with description := some newDescription }
              else t1),
          { tx with
            status := TransactionStatus.rejected, updated_at := now,
            description := some ((tx.description.getD "")
              ++ " [ОТКЛОНЕНО: " ++ s ++ "]") }) := by
  intro store tid uid s now tx hfind hst hs
  have hT : pyTruthy (some s) = true := by simp [pyTruthy, hs]
  unfold reject_transaction
  rw [hfind]
  simp [hst, hT]

/-- C7 witness: rejecting the PENDING fixture with reason
"duplicate charge" appends the audit suffix. -/
theorem C7_reject_appends_nonempty_reason_witness :
    reject_transaction stPending 1 1 (some "duplicate charge") 5 =
      Except.ok (updateStore stPending 1 1
          (fun t : Transaction =>
            let t1 := { t with
                        status := TransactionStatus.rejected,
                        updated_at := (5 : ℤ) }
            if pyTruthy (some "duplicate charge") then
              let current_description := t1.description.getD ""
              let newDescription :=
                current_description ++ " [ОТКЛОНЕНО: "
                  ++ (some "duplicate charge" : Option String).getD "" ++ "]"
              { t1 with description := some newDescription }
            else t1),
        { txPending with
          status := TransactionStatus.rejected, updated_at := 5,
          description := some ((txPending.description.getD "")
            ++ " [ОТКЛОНЕНО: " ++ "duplicate charge" ++ "]") }) :=
  C7_reject_appends_nonempty_reason stPending 1 1 "duplicate charge" 5
    txPending rfl rfl (by decide)
